import Mathlib

/-!
Shallow embedding of `src/backend/cuda/platform.cpp` (ArrayFire CUDA backend,
device enumeration / ranking / selection), together with theorems checking the
natural-language specification against it.

Modelling conventions:
* C++ `int` fields are modelled as `Int`, `size_t` memory as `Nat`; the flops
  product is kept as exact integer arithmetic (the field's width is not visible
  in this translation unit).
* The native driver calls (`cudaGetDeviceProperties`, `cudaSetDevice`, ...) are
  external to the repository; discovery is modelled as a function of the list
  of capability descriptors the platform would report, and `cudaSetDevice` is
  modelled as succeeding.
* `std::sort` is modelled by `List.insertionSort` with the source comparator as
  the comes-before relation; every comparator below is total and transitive
  (each compares a single key with `>=`), so the output is sorted with respect
  to the comparator, which is all `std::sort` guarantees.
* An out-of-bounds `std::vector` subscript is undefined behaviour; fallible
  accesses are modelled with `Option`, `none` standing for the undefined case.
-/

namespace Cuda

/-- The fields of `cudaDeviceProp` that `platform.cpp` reads: `name`, `major`,
`minor`, `totalGlobalMem`, `multiProcessorCount`, `clockRate`. -/
structure CudaProp where
  name : String
  major : Int
  minor : Int
  totalGlobalMem : Nat
  multiProcessorCount : Int
  clockRate : Int
deriving DecidableEq, Repr

/-- `cudaDevice_t`: capability descriptor plus the derived `flops` score and
the discovery-time `nativeId` (platform.cpp lines 274-279). -/
structure cudaDevice_t where
  prop : CudaProp
  flops : Int
  nativeId : Int
deriving DecidableEq, Repr

/-- The `sort_mode` enumeration dispatched on by `DeviceManager::sortDevices`
(platform.cpp lines 287-303): `memory`, `flops`, `compute`, `none`. -/
inductive SortMode where
  | memory
  | flops
  | compute
  | none
deriving DecidableEq, Repr

/-- The static architecture-revision → cores-per-multiprocessor table of
`compute2cores` (platform.cpp lines 45-56), keyed by `0xMm = (major << 4) + minor`;
the `{-1, -1}` sentinel terminates the loop and is represented by the end of the
list. -/
def gpusTable : List (Int × Int) :=
  [(0x10, 8), (0x11, 8), (0x12, 8), (0x13, 8),
   (0x20, 32), (0x21, 48), (0x30, 192), (0x35, 192), (0x50, 128)]

/-- The scan loop of `compute2cores` (platform.cpp lines 58-61): return the
cores of the first entry whose key matches, else fall through. -/
def lookupCores (key : Int) : List (Int × Int) → Int
  | [] => 0
  | (c, n) :: rest => if c = key then n else lookupCores key rest

/-- `compute2cores(major, minor)` (platform.cpp lines 40-63): table lookup on
the key `(major << 4) + minor`, returning `0` when no entry matches.
`major << 4` is written `major * 16`. -/
def compute2cores (major minor : Int) : Int :=
  lookupCores (major * 16 + minor) gpusTable

/-!
The comparator family (platform.cpp lines 69-120). The `COMPARE(a,b,f)` macro
expands to `do { return ((a)->f >= (b)->f); } while (0);` — an *unconditional*
return — so in every `card_compare_*` function only the first `COMPARE` line
executes; the remaining `COMPARE` lines and the trailing `return 0;` are dead
code. Each comparator therefore compares exactly one key, non-strictly.
-/

/-- `card_compare_compute` (lines 74-85). Only `COMPARE(lc, rc, prop.major)`
is reachable; the subsequent comparisons of `prop.minor`, `flops`,
`prop.totalGlobalMem`, `nativeId` and the `return 0` are dead code. -/
def card_compare_compute (l r : cudaDevice_t) : Bool :=
  decide (l.prop.major ≥ r.prop.major)

/-- `card_compare_flops` (lines 87-98). Only `COMPARE(lc, rc, flops)` is
reachable; the subsequent comparisons of `prop.totalGlobalMem`, `prop.major`,
`prop.minor`, `nativeId` and the `return 0` are dead code. -/
def card_compare_flops (l r : cudaDevice_t) : Bool :=
  decide (l.flops ≥ r.flops)

/-- `card_compare_mem` (lines 100-111). Only `COMPARE(lc, rc, prop.totalGlobalMem)`
is reachable; the rest is dead code. -/
def card_compare_mem (l r : cudaDevice_t) : Bool :=
  decide (l.prop.totalGlobalMem ≥ r.prop.totalGlobalMem)

/-- `card_compare_num` (lines 113-120): `COMPARE(lc, rc, nativeId)`, i.e.
`l.nativeId >= r.nativeId`. -/
def card_compare_num (l r : cudaDevice_t) : Bool :=
  decide (l.nativeId ≥ r.nativeId)

/-- The comparator `DeviceManager::sortDevices` selects for each mode
(platform.cpp lines 289-302). -/
def cardCompare : SortMode → cudaDevice_t → cudaDevice_t → Bool
  | SortMode.memory => card_compare_mem
  | SortMode.flops => card_compare_flops
  | SortMode.compute => card_compare_compute
  | SortMode.none => card_compare_num

/-- `std::sort(cuDevices.begin(), cuDevices.end(), comparator)` as used by
`sortDevices`, modelled as insertion sort with the comparator as the
comes-before relation. -/
def sortDevicesList (mode : SortMode) (l : List cudaDevice_t) : List cudaDevice_t :=
  List.insertionSort (fun a b => cardCompare mode a b = true) l

/-- The `DeviceManager` registry state: `cuDevices`, `activeDev`, `nDevices`. -/
structure DeviceManager where
  cuDevices : List cudaDevice_t
  activeDev : Int
  nDevices : Int
deriving DecidableEq, Repr

/-- `DeviceManager::setActiveDevice` (platform.cpp lines 305-315): the guard
is `device > cuDevices.size()` (loose, not `>=`, and no lower bound); when the
guard passes, the native `cudaSetDevice(device)` call (modelled as succeeding)
is issued, `activeDev` is updated and the previous value returned. Returns the
updated registry and the `int` result. -/
def DeviceManager.setActiveDevice (m : DeviceManager) (device : Int) :
    DeviceManager × Int :=
  if device > (m.cuDevices.length : Int) then
    (m, -1)
  else
    ({ m with activeDev := device }, m.activeDev)

/-- `getActiveDeviceId` (platform.cpp lines 232-235). -/
def getActiveDeviceId (m : DeviceManager) : Int :=
  m.activeDev

/-- `getDeviceCount` (platform.cpp lines 227-230). -/
def getDeviceCount (m : DeviceManager) : Int :=
  m.nDevices

/-- Unchecked `std::vector` subscript `v[i]` with an `int` index: defined only
for `0 ≤ i < v.size()`; any out-of-bounds access is undefined behaviour,
modelled as `none`. -/
def vecGet {α : Type} (l : List α) (i : Int) : Option α :=
  if 0 ≤ i then l.get? i.toNat else Option.none

/-- `getDeviceNativeId` (platform.cpp lines 237-242): upper-bound check only
(`device < cuDevices.size()`), then the unchecked subscript; `-1` when the
check fails. A negative `device` passes the signed check and reaches the
out-of-bounds subscript. -/
def getDeviceNativeId (m : DeviceManager) (device : Int) : Option Int :=
  if device < (m.cuDevices.length : Int) then
    (vecGet m.cuDevices device).map (fun d => d.nativeId)
  else
    some (-1)

/-- `getDeviceProp` (platform.cpp lines 249-254): upper-bound check only, then
the unchecked subscript; on check failure it falls back to `cuDevices[0].prop`. -/
def getDeviceProp (m : DeviceManager) (device : Int) : Option CudaProp :=
  if device < (m.cuDevices.length : Int) then
    (vecGet m.cuDevices device).map (fun d => d.prop)
  else
    (vecGet m.cuDevices 0).map (fun d => d.prop)

/-- The megabyte figure of `getDeviceInfo` (platform.cpp lines 175-176):
`mem / (1024*1024) + !!(mem % (1024*1024))`, with `!!x` equal to `0` when `x`
is zero and `1` otherwise. -/
def mbCount (mem_gpu_total : Nat) : Nat :=
  mem_gpu_total / (1024 * 1024) +
    (if mem_gpu_total % (1024 * 1024) = 0 then 0 else 1)

/-- The memory component of `getDeviceInfo` (platform.cpp lines 175-177). -/
def memoryString (mem_gpu_total : Nat) : String :=
  toString (mbCount mem_gpu_total) ++ " MB"

/-- `getDeviceInfo(device)` (platform.cpp lines 163-185) as a function of the
ordered position, the capability descriptor `getDeviceProp(device)` returns,
and the active id `getActiveDeviceId()` returns. -/
def getDeviceInfo (device : Int) (dev : CudaProp) (activeId : Int) : String :=
  let show_braces : Bool := activeId = device
  let id := (if show_braces then "[" else "-") ++ toString device ++
            (if show_braces then "]" else "-")
  let name := dev.name
  let memory := memoryString dev.totalGlobalMem
  let compute := "CUDA Compute " ++ toString dev.major ++ "." ++ toString dev.minor
  id ++ " " ++ name ++ ", " ++ memory ++ ", " ++ compute ++ "\n"

/-- One iteration of the discovery loop (platform.cpp lines 274-279): descriptor
`prop` discovered at index `i`, with
`flops = multiProcessorCount * compute2cores(major, minor) * clockRate` and
`nativeId = i`. -/
def mkDevice (i : Nat) (p : CudaProp) : cudaDevice_t :=
  { prop := p,
    flops := p.multiProcessorCount * compute2cores p.major p.minor * p.clockRate,
    nativeId := (i : Int) }

/-- The discovery loop starting at index `i`. -/
def mkDevicesAux (i : Nat) : List CudaProp → List cudaDevice_t
  | [] => []
  | p :: rest => mkDevice i p :: mkDevicesAux (i + 1) rest

/-- The discovery loop `for(int i = 0; i < nDevices; i++) ...` of the
`DeviceManager` constructor. -/
def mkDevices (props : List CudaProp) : List cudaDevice_t :=
  mkDevicesAux 0 props

/-- `DeviceManager::DeviceManager()` (platform.cpp lines 265-285) as a function
of the capability descriptors the platform reports: throws
(`Except.error`) when the device count is zero; otherwise populates
`cuDevices`, calls `sortDevices()` — whose default mode, per the declaration,
is `none` — and finishes with `setActiveDevice(0)`. -/
def DeviceManager.construct (props : List CudaProp) : Except String DeviceManager :=
  if props.length = 0 then
    Except.error "No CUDA-Capable devices found"
  else
    let m0 : DeviceManager :=
      { cuDevices := sortDevicesList SortMode.none (mkDevices props),
        activeDev := 0,
        nDevices := (props.length : Int) }
    Except.ok (m0.setActiveDevice 0).1

/-!
Spec-side definitions, used only to compare the code against the
specification's words.
-/

/-- Modelled from the spec: the key sequence the spec states for the
`byThroughput` ranking policy — "throughputScore, then total memory, then
architecture major, then minor, then nativeId", every comparison descending
except the final `nativeId` tie-break, which is ascending. -/
def specPrecedes_flops (l r : cudaDevice_t) : Bool :=
  if l.flops ≠ r.flops then decide (l.flops > r.flops)
  else if l.prop.totalGlobalMem ≠ r.prop.totalGlobalMem then
    decide (l.prop.totalGlobalMem > r.prop.totalGlobalMem)
  else if l.prop.major ≠ r.prop.major then decide (l.prop.major > r.prop.major)
  else if l.prop.minor ≠ r.prop.minor then decide (l.prop.minor > r.prop.minor)
  else decide (l.nativeId ≤ r.nativeId)

/-- Modelled from the spec: the architecture revisions `(major, minor)` that
the `compute2cores` table lists (1.0 through 5.0). -/
def listedRevisions : List (Int × Int) :=
  [(1, 0), (1, 1), (1, 2), (1, 3), (2, 0), (2, 1), (3, 0), (3, 5), (5, 0)]

/-!
Concrete fixtures: the three simulated devices of the spec's §8 scenario,
plus small registries and device pairs used by concrete evaluations.
-/

/-- Scenario device 0: compute 3.5, 15 multiprocessors, 745 clock, 4 GB. -/
def sp0 : CudaProp :=
  { name := "scenario0", major := 3, minor := 5, totalGlobalMem := 4294967296,
    multiProcessorCount := 15, clockRate := 745 }

/-- Scenario device 1: compute 5.0, 20 multiprocessors, 1000 clock, 8 GB. -/
def sp1 : CudaProp :=
  { name := "scenario1", major := 5, minor := 0, totalGlobalMem := 8589934592,
    multiProcessorCount := 20, clockRate := 1000 }

/-- Scenario device 2: compute 2.0, 8 multiprocessors, 1500 clock, 2 GB. -/
def sp2 : CudaProp :=
  { name := "scenario2", major := 2, minor := 0, totalGlobalMem := 2147483648,
    multiProcessorCount := 8, clockRate := 1500 }

/-- A descriptor with 20 bytes of memory; same architecture, multiprocessor
count and clock as `pb`, so the derived flops agree. -/
def pa : CudaProp :=
  { name := "cardA", major := 3, minor := 5, totalGlobalMem := 20,
    multiProcessorCount := 10, clockRate := 100 }

/-- A descriptor identical to `pa` except for its larger memory (50 bytes). -/
def pb : CudaProp :=
  { name := "cardB", major := 3, minor := 5, totalGlobalMem := 50,
    multiProcessorCount := 10, clockRate := 100 }

/-- Device discovered at index 1 with descriptor `pa`: small memory. -/
def dA : cudaDevice_t := mkDevice 1 pa

/-- Device discovered at index 0 with descriptor `pb`: large memory, equal flops. -/
def dB : cudaDevice_t := mkDevice 0 pb

/-- Device with `nativeId = 0`. -/
def e0 : cudaDevice_t := mkDevice 0 pa

/-- Device with `nativeId = 1`, otherwise identical to `e0`. -/
def e1 : cudaDevice_t := mkDevice 1 pa

/-- A one-device registry, exactly as `DeviceManager::DeviceManager()` builds
it from the single descriptor `sp0`. -/
def mgr1 : DeviceManager :=
  { cuDevices := mkDevices [sp0], activeDev := 0, nDevices := 1 }

/-- A descriptor whose architecture revision 9.0 is absent from the
`compute2cores` table. -/
def spU : CudaProp :=
  { name := "unlisted", major := 9, minor := 0, totalGlobalMem := 1024,
    multiProcessorCount := 4, clockRate := 100 }

/-- Device with the unlisted architecture `spU`; its derived flops is 0. -/
def dU : cudaDevice_t := mkDevice 1 spU

/-- Device with the listed architecture `sp1`; its derived flops is positive. -/
def dL : cudaDevice_t := mkDevice 0 sp1

/-!
Helper lemmas about the embedded operations.
-/

theorem mkDevicesAux_length (s : Nat) (props : List CudaProp) :
    (mkDevicesAux s props).length = props.length := by
  induction props generalizing s with
  | nil => rfl
  | cons p rest ih => simp [mkDevicesAux, ih]

theorem mkDevicesAux_get? (s i : Nat) (props : List CudaProp) :
    (mkDevicesAux s props).get? i = (props.get? i).map (fun p => mkDevice (s + i) p) := by
  induction props generalizing s i with
  | nil => simp [mkDevicesAux]
  | cons p rest ih =>
    cases i with
    | zero => simp [mkDevicesAux]
    | succ j =>
      have hsj : s + 1 + j = s + (j + 1) := by omega
      simpa [mkDevicesAux, hsj] using ih (s + 1) j

theorem mkDevices_length (props : List CudaProp) :
    (mkDevices props).length = props.length :=
  mkDevicesAux_length 0 props

theorem mkDevices_get? (i : Nat) (props : List CudaProp) :
    (mkDevices props).get? i = (props.get? i).map (fun p => mkDevice i p) := by
  simpa using mkDevicesAux_get? 0 i props

/-- The output of the flops-mode sort is sorted with respect to the code's
comparator (the comparator is total and transitive: it compares one key). -/
theorem sorted_flops (devs : List cudaDevice_t) :
    List.Sorted (fun a b => card_compare_flops a b = true)
      (sortDevicesList SortMode.flops devs) := by
  haveI : IsTotal cudaDevice_t (fun a b => card_compare_flops a b = true) :=
    ⟨fun a b => by simp [card_compare_flops]; omega⟩
  haveI : IsTrans cudaDevice_t (fun a b => card_compare_flops a b = true) :=
    ⟨fun a b c hab hbc => by
      simp [card_compare_flops] at hab hbc ⊢
      omega⟩
  exact List.sorted_insertionSort _ devs

/-- Sorting in any mode permutes the device list. -/
theorem sortDevicesList_perm (mode : SortMode) (l : List cudaDevice_t) :
    (sortDevicesList mode l).Perm l := by
  cases mode <;> exact List.perm_insertionSort _ _

/-- For a single-hex-digit minor revision, the key `(major << 4) + minor`
decodes uniquely, so any revision missing from the table yields 0 cores. -/
theorem compute2cores_unlisted_zero (major minor : Int)
    (hmaj : 0 ≤ major) (hmin : 0 ≤ minor) (hlt : minor < 16)
    (hmem : (major, minor) ∉ listedRevisions) :
    compute2cores major minor = 0 := by
  simp [listedRevisions, List.mem_cons, Prod.mk.injEq] at hmem
  simp only [compute2cores, gpusTable, lookupCores]
  split_ifs <;> omega

/-!
Claim theorems.
-/

/-- C1: refuted on the code. `COMPARE`'s unconditional return makes every
`card_compare_*` comparator compare only its first key, non-strictly, so the
stated cascading tie-breaks never execute: on two devices with equal flops,
where the spec's key sequence for `byThroughput` puts the larger-memory device
`dB` first, the comparator accepts both orders (it is not asymmetric, hence
induces no total order) and the sort leaves the spec-violating order `[dA, dB]`
in place. -/
theorem c1_compare_ignores_tie_breaks :
    sortDevicesList SortMode.flops [dA, dB] = [dA, dB] ∧
    specPrecedes_flops dA dB = false ∧
    specPrecedes_flops dB dA = true ∧
    card_compare_flops dA dB = true ∧
    card_compare_flops dB dA = true := by
  decide

/-- C2: refuted on the code. `card_compare_num` is
`l.nativeId >= r.nativeId`, a comes-before relation that ranks *higher*
nativeId first, so sorting in `byNativeOrder` mode yields descending nativeId
order `[e1, e0]` rather than restoring ascending discovery order `[e0, e1]`;
indeed the ascending order is not even sorted with respect to the comparator,
since `card_compare_num e1 e0 = true`. -/
theorem c2_native_order_descending :
    sortDevicesList SortMode.none [e0, e1] = [e1, e0] ∧
    (sortDevicesList SortMode.none [e0, e1]).map (fun d => d.nativeId) ≠ [0, 1] ∧
    card_compare_num e1 e0 = true ∧
    card_compare_num e0 e1 = false := by
  decide

/-- C3: refuted on the code. On the constructor-built one-device registry
`mgr1`, `setActiveDevice(1)` — position equal to `len(devices)`, hence outside
`[0, len)` — passes the loose `device > size` guard, sets `activeIndex` to 1
(violating `activeIndex < len(devices)`) and returns the old position instead
of the `-1` error; a negative position `-3` likewise passes the guard and is
stored. -/
theorem c3_loose_bound_violates_invariant :
    DeviceManager.construct [sp0] = Except.ok mgr1 ∧
    (mgr1.setActiveDevice 1).1.activeDev = 1 ∧
    ¬((mgr1.setActiveDevice 1).1.activeDev < ((mgr1.setActiveDevice 1).1.cuDevices.length : Int)) ∧
    (mgr1.setActiveDevice 1).2 = 0 ∧
    (mgr1.setActiveDevice (-3)).1.activeDev = -3 := by
  exact ⟨rfl, by decide, by decide, by decide, by decide⟩

/-- C4: for every registry satisfying the active-index invariant and every
valid position `p`, `setActiveDevice p` stores `p` (so `activeDeviceId`
then returns `p`), returns the previously active position, and calling
`setActiveDevice` again with that returned value restores the registry to its
previous state exactly. -/
theorem c4_set_active_round_trip (m : DeviceManager) (p : Int)
    (hp0 : 0 ≤ p) (hp : p < (m.cuDevices.length : Int))
    (ha0 : 0 ≤ m.activeDev) (ha : m.activeDev < (m.cuDevices.length : Int)) :
    getActiveDeviceId (m.setActiveDevice p).1 = p ∧
    (m.setActiveDevice p).2 = m.activeDev ∧
    ((m.setActiveDevice p).1.setActiveDevice (m.setActiveDevice p).2).1 = m := by
  have h1 : ¬(p > (m.cuDevices.length : Int)) := by omega
  have h2 : ¬(m.activeDev > (m.cuDevices.length : Int)) := by omega
  simp [DeviceManager.setActiveDevice, getActiveDeviceId, h1, h2]

/-- C4 witness: the round trip evaluated on the concrete registry `mgr1` at
position 0. -/
theorem c4_set_active_round_trip_w :
    getActiveDeviceId (mgr1.setActiveDevice 0).1 = 0 ∧
    (mgr1.setActiveDevice 0).2 = mgr1.activeDev ∧
    ((mgr1.setActiveDevice 0).1.setActiveDevice (mgr1.setActiveDevice 0).2).1 = mgr1 :=
  c4_set_active_round_trip mgr1 0 (by decide) (by decide) (by decide) (by decide)

/-- C5: construction from an empty platform report fails with the fatal
no-device error, and never yields a registry; from a non-empty report it
yields a registry whose device list is a permutation of the discovery list,
has exactly `n` entries (in particular it is non-empty), and the descriptor
discovered at index `i` carries `nativeId = i`, the reported capability
descriptor, and the derived throughput score. -/
theorem c5_construction (props : List CudaProp) :
    (props = [] → DeviceManager.construct props =
        Except.error "No CUDA-Capable devices found") ∧
    (props ≠ [] → ∃ m, DeviceManager.construct props = Except.ok m ∧
        m.cuDevices.Perm (mkDevices props) ∧
        m.cuDevices.length = props.length ∧
        m.cuDevices ≠ [] ∧
        ∀ i, i < props.length → ∃ d p,
          (mkDevices props).get? i = some d ∧
          props.get? i = some p ∧
          d.nativeId = (i : Int) ∧
          d.prop = p ∧
          d.flops = p.multiProcessorCount * compute2cores p.major p.minor *
            p.clockRate) := by
  constructor
  · intro h
    subst h
    rfl
  · intro h
    have hlen : props.length ≠ 0 := by simpa using h
    have hguard : ¬((0 : Int) >
        ((sortDevicesList SortMode.none (mkDevices props)).length : Int)) := by
      omega
    refine ⟨{ cuDevices := sortDevicesList SortMode.none (mkDevices props),
              activeDev := 0, nDevices := (props.length : Int) }, ?_, ?_, ?_, ?_, ?_⟩
    · rw [DeviceManager.construct, if_neg hlen]
      simp [DeviceManager.setActiveDevice, hguard]
    · exact sortDevicesList_perm _ _
    · show (sortDevicesList SortMode.none (mkDevices props)).length = props.length
      rw [(sortDevicesList_perm _ _).length_eq, mkDevices_length]
    · have hpos : 0 < (sortDevicesList SortMode.none (mkDevices props)).length := by
        rw [(sortDevicesList_perm _ _).length_eq, mkDevices_length]
        omega
      exact List.length_pos.mp hpos
    · intro i hi
      have hgi : i < (mkDevices props).length := by
        rw [mkDevices_length]
        exact hi
      refine ⟨(mkDevices props).get ⟨i, hgi⟩, props.get ⟨i, hi⟩,
        List.get?_eq_get hgi, List.get?_eq_get hi, ?_⟩
      have hmk := mkDevices_get? i props
      rw [List.get?_eq_get hgi, List.get?_eq_get hi] at hmk
      have : (mkDevices props).get ⟨i, hgi⟩ = mkDevice i (props.get ⟨i, hi⟩) := by
        exact Option.some.inj hmk
      rw [this]
      exact ⟨rfl, rfl, rfl⟩

/-- C5 witness: construction evaluated on the empty report and on the
one-device report `[sp0]`. -/
theorem c5_construction_w :
    (DeviceManager.construct [] =
        Except.error "No CUDA-Capable devices found") ∧
    (∃ m, DeviceManager.construct [sp0] = Except.ok m ∧
        m.cuDevices.Perm (mkDevices [sp0]) ∧
        m.cuDevices.length = [sp0].length ∧
        m.cuDevices ≠ [] ∧
        ∀ i, i < [sp0].length → ∃ d p,
          (mkDevices [sp0]).get? i = some d ∧
          [sp0].get? i = some p ∧
          d.nativeId = (i : Int) ∧
          d.prop = p ∧
          d.flops = p.multiProcessorCount * compute2cores p.major p.minor *
            p.clockRate) :=
  ⟨(c5_construction []).1 rfl, (c5_construction [sp0]).2 (by simp)⟩

/-- C6 counterexample: on the three simulated devices the `byThroughput` sort
does not order them device2, device0, device1 — the claim's labels swap
devices 1 and 2. -/
theorem c6_scenario_counterexample :
    (sortDevicesList SortMode.flops (mkDevices [sp0, sp1, sp2])).map
      (fun d => d.nativeId) ≠ [2, 0, 1] := by
  decide

/-- C6 amended: the throughput score of every discovered device is
(parallel-unit count) × (cores-per-unit from the architecture revision) ×
(clock rate); on the three simulated devices the scores are 2,145,600,
2,560,000 and 384,000, and the `byThroughput` sort orders them device1
(2,560,000) before device0 (2,145,600) before device2 (384,000). -/
theorem c6_throughput_formula_and_order :
    (∀ (i : Nat) (p : CudaProp), (mkDevice i p).flops =
        p.multiProcessorCount * compute2cores p.major p.minor * p.clockRate) ∧
    (mkDevice 0 sp0).flops = 2145600 ∧
    (mkDevice 1 sp1).flops = 2560000 ∧
    (mkDevice 2 sp2).flops = 384000 ∧
    (sortDevicesList SortMode.flops (mkDevices [sp0, sp1, sp2])).map
      (fun d => d.nativeId) = [1, 0, 2] :=
  ⟨fun _ _ => rfl, by decide, by decide, by decide, by decide⟩

/-- C7: `deviceSummary` is a deterministic function of the ordered position,
the capability descriptor and the active id; the printed memory figure is the
total memory in bytes rounded up to the next whole megabyte, so 3,145,729
bytes prints as "4 MB" and exactly 3,145,728 bytes prints as "3 MB". -/
theorem c7_summary_deterministic_mb :
    (∀ (d : Int) (p : CudaProp) (a : Int) (d2 : Int) (p2 : CudaProp) (a2 : Int),
        d = d2 → p = p2 → a = a2 → getDeviceInfo d p a = getDeviceInfo d2 p2 a2) ∧
    memoryString 3145729 = "4 MB" ∧
    memoryString 3145728 = "3 MB" ∧
    (∀ mem : Nat, mbCount mem = (mem + (1024 * 1024) - 1) / (1024 * 1024)) := by
  refine ⟨?_, rfl, rfl, ?_⟩
  · intro d p a d2 p2 a2 hd hp ha
    subst hd
    subst hp
    subst ha
    rfl
  · intro mem
    unfold mbCount
    split_ifs with h <;> omega

/-- C7 witness: determinism and the rounded megabyte figures evaluated on the
concrete descriptor `sp0`. -/
theorem c7_summary_deterministic_mb_w :
    getDeviceInfo 0 sp0 0 = getDeviceInfo 0 sp0 0 ∧
    memoryString 3145729 = "4 MB" ∧
    mbCount 3145729 = (3145729 + (1024 * 1024) - 1) / (1024 * 1024) :=
  ⟨c7_summary_deterministic_mb.1 0 sp0 0 0 sp0 0 rfl rfl rfl,
   c7_summary_deterministic_mb.2.1,
   c7_summary_deterministic_mb.2.2.2 3145729⟩

/-- C8 counterexample: on the one-device registry `mgr1` the negative position
`-1` is outside `[0, deviceCount)`, yet `getDeviceNativeId` does not return the
sentinel `-1`: the signed upper-bound check passes and the unchecked
`cuDevices[-1]` access is undefined behaviour (`none` in the model). -/
theorem c8_negative_position_counterexample :
    getDeviceNativeId mgr1 (-1) = Option.none ∧
    getDeviceNativeId mgr1 (-1) ≠ some (-1) := by
  decide

/-- C8 amended: `getDeviceNativeId` returns the sentinel `-1` exactly for
positions at or above `deviceCount`; for positions in `[0, deviceCount)` it
returns the native id of the device at that ordered position; negative
positions are not checked and reach an out-of-bounds vector access. -/
theorem c8_native_id_amended (m : DeviceManager) (d : Int) :
    ((m.cuDevices.length : Int) ≤ d → getDeviceNativeId m d = some (-1)) ∧
    (0 ≤ d → d < (m.cuDevices.length : Int) →
      ∃ dev, m.cuDevices.get? d.toNat = some dev ∧
        getDeviceNativeId m d = some dev.nativeId) ∧
    (d < 0 → getDeviceNativeId m d = Option.none) := by
  refine ⟨?_, ?_, ?_⟩
  · intro h
    rw [getDeviceNativeId, if_neg (by omega)]
  · intro h0 hlt
    have hn : d.toNat < m.cuDevices.length := by omega
    refine ⟨m.cuDevices.get ⟨d.toNat, hn⟩, List.get?_eq_get hn, ?_⟩
    rw [getDeviceNativeId, if_pos hlt, vecGet, if_pos h0, List.get?_eq_get hn]
    rfl
  · intro h
    rw [getDeviceNativeId, if_pos (by omega), vecGet, if_neg (by omega)]
    rfl

/-- C8 amended witness: the three regimes evaluated on `mgr1` at positions 5,
0 and -1. -/
theorem c8_native_id_amended_w :
    getDeviceNativeId mgr1 5 = some (-1) ∧
    (∃ dev, mgr1.cuDevices.get? (0 : Int).toNat = some dev ∧
      getDeviceNativeId mgr1 0 = some dev.nativeId) ∧
    getDeviceNativeId mgr1 (-2) = Option.none :=
  ⟨(c8_native_id_amended mgr1 5).1 (by decide),
   (c8_native_id_amended mgr1 0).2.1 (by decide) (by decide),
   (c8_native_id_amended mgr1 (-2)).2.2 (by decide)⟩

/-- C9 counterexample: on the one-device registry `mgr1` the negative position
`-1` is outside `[0, deviceCount)`, yet `getDeviceProp` does not fall back to
the position-0 descriptor (`sp0`): the signed upper-bound check passes and the
unchecked `cuDevices[-1]` access is undefined behaviour (`none` in the
model). -/
theorem c9_negative_position_counterexample :
    getDeviceProp mgr1 (-1) = Option.none ∧
    getDeviceProp mgr1 (-1) ≠ some sp0 := by
  decide

/-- C9 amended: `getDeviceProp` silently falls back to the position-0
descriptor exactly for positions at or above `deviceCount`; for positions in
`[0, deviceCount)` it returns the descriptor at that ordered position;
negative positions are not checked and reach an out-of-bounds vector
access. -/
theorem c9_capability_amended (m : DeviceManager) (d : Int) :
    ((m.cuDevices.length : Int) ≤ d → ∀ dev0, m.cuDevices.get? 0 = some dev0 →
        getDeviceProp m d = some dev0.prop) ∧
    (0 ≤ d → d < (m.cuDevices.length : Int) →
      ∃ dev, m.cuDevices.get? d.toNat = some dev ∧
        getDeviceProp m d = some dev.prop) ∧
    (d < 0 → getDeviceProp m d = Option.none) := by
  refine ⟨?_, ?_, ?_⟩
  · intro h dev0 hdev0
    rw [getDeviceProp, if_neg (by omega), vecGet, if_pos (by omega)]
    show (m.cuDevices.get? (0 : Int).toNat).map (fun d => d.prop) = some dev0.prop
    rw [show ((0 : Int).toNat) = 0 from rfl, hdev0]
    rfl
  · intro h0 hlt
    have hn : d.toNat < m.cuDevices.length := by omega
    refine ⟨m.cuDevices.get ⟨d.toNat, hn⟩, List.get?_eq_get hn, ?_⟩
    rw [getDeviceProp, if_pos hlt, vecGet, if_pos h0, List.get?_eq_get hn]
    rfl
  · intro h
    rw [getDeviceProp, if_pos (by omega), vecGet, if_neg (by omega)]
    rfl

/-- C9 amended witness: the three regimes evaluated on `mgr1` at positions 5,
0 and -1. -/
theorem c9_capability_amended_w :
    getDeviceProp mgr1 5 = some (mkDevice 0 sp0).prop ∧
    (∃ dev, mgr1.cuDevices.get? (0 : Int).toNat = some dev ∧
      getDeviceProp mgr1 0 = some dev.prop) ∧
    getDeviceProp mgr1 (-2) = Option.none :=
  ⟨(c9_capability_amended mgr1 5).1 (by decide) (mkDevice 0 sp0) (by decide),
   (c9_capability_amended mgr1 0).2.1 (by decide) (by decide),
   (c9_capability_amended mgr1 (-2)).2.2 (by decide)⟩

/-- C10 counterexample: the revision (0, 16) is not in the table (which lists
only revisions 1.0 through 5.0), yet `compute2cores` returns 8, not 0: the key
`(major << 4) + minor` collides with the listed key `0x10` when the minor
revision overflows one hex digit. -/
theorem c10_encoding_collision_counterexample :
    compute2cores 0 16 = 8 ∧
    ((0 : Int), (16 : Int)) ∉ listedRevisions ∧
    (8 : Int) ≠ 0 := by
  decide

/-- C10 amended: for every architecture revision with a single-hex-digit minor
(0 ≤ minor < 16, 0 ≤ major) that is not in the table, `compute2cores` returns
0; a discovered device with such a revision gets throughput score 0; and in
the `byThroughput` sort every zero-score device is placed after every
positive-score device. -/
theorem c10_unlisted_arch_amended :
    (∀ major minor : Int, 0 ≤ major → 0 ≤ minor → minor < 16 →
      (major, minor) ∉ listedRevisions → compute2cores major minor = 0) ∧
    (∀ (i : Nat) (p : CudaProp), 0 ≤ p.major → 0 ≤ p.minor → p.minor < 16 →
      (p.major, p.minor) ∉ listedRevisions → (mkDevice i p).flops = 0) ∧
    (∀ (devs : List cudaDevice_t) (i j : Nat)
      (hi : i < (sortDevicesList SortMode.flops devs).length)
      (hj : j < (sortDevicesList SortMode.flops devs).length),
      ((sortDevicesList SortMode.flops devs).get ⟨i, hi⟩).flops = 0 →
      0 < ((sortDevicesList SortMode.flops devs).get ⟨j, hj⟩).flops →
      j < i) := by
  refine ⟨compute2cores_unlisted_zero, ?_, ?_⟩
  · intro i p h1 h2 h3 h4
    show p.multiProcessorCount * compute2cores p.major p.minor * p.clockRate = 0
    rw [compute2cores_unlisted_zero p.major p.minor h1 h2 h3 h4]
    ring
  · intro devs i j hi hj h0 hpos
    rcases Nat.lt_trichotomy i j with hlt | heq | hgt
    · have hrel := (sorted_flops devs).rel_get_of_lt
        (a := ⟨i, hi⟩) (b := ⟨j, hj⟩) hlt
      simp only [card_compare_flops, decide_eq_true_eq] at hrel
      simp only [List.get_eq_getElem, Fin.val_mk] at h0 hpos hrel
      omega
    · subst heq
      omega
    · exact hgt

/-- C10 amended witness: the unlisted revision 7.7 yields 0 cores, the device
`dU` with unlisted architecture has score 0, and in the concrete flops-mode
sort of `[dU, dL]` the zero-score device lands after the positive-score one. -/
theorem c10_unlisted_arch_amended_w :
    compute2cores 7 7 = 0 ∧
    (mkDevice 1 spU).flops = 0 ∧
    (0 : Nat) < 1 :=
  ⟨c10_unlisted_arch_amended.1 7 7 (by decide) (by decide) (by decide) (by decide),
   c10_unlisted_arch_amended.2.1 1 spU (by decide) (by decide) (by decide) (by decide),
   c10_unlisted_arch_amended.2.2 [dU, dL] 1 0 (by decide) (by decide)
     (by decide) (by decide)⟩

end Cuda
